import Mathlib

/-!
Verification of the Earthquake-Tsunami-Predictive-Dashboard (`src/app.py`)
against its natural-language specification.

Numeric values from the Python source (floats and ints) are embedded as
rationals (`ℚ`); the single-row pandas DataFrame `input_data` is embedded as
an ordered association list of (column name, value), which captures the
insertion order of the Python dict literal at `app.py` lines 73-77 (Python
dicts preserve insertion order, and `pd.DataFrame([dict])` adopts that order
as its column order).  Python exceptions are embedded with `Except String`.
-/

/-- The current values of the twelve sidebar controls (`app.py` lines 59-70).
Integer-valued controls (cdi, mmi, sig, nst, year, month) are embedded as
rationals as well; their integrality plays no role in any claim. -/
structure FormState where
  magnitude : ℚ
  depth : ℚ
  cdi : ℚ
  mmi : ℚ
  sig : ℚ
  nst : ℚ
  dmin : ℚ
  gap : ℚ
  latitude : ℚ
  longitude : ℚ
  year : ℚ
  month : ℚ
deriving DecidableEq

/-- The input assembler (`app.py` lines 73-77): builds the single-row
DataFrame from the current form values.  The association list records the
column order of the dict literal in the source. -/
def input_data (f : FormState) : List (String × ℚ) :=
  [("magnitude", f.magnitude), ("cdi", f.cdi), ("mmi", f.mmi), ("sig", f.sig),
   ("nst", f.nst), ("dmin", f.dmin), ("gap", f.gap), ("depth", f.depth),
   ("latitude", f.latitude), ("longitude", f.longitude),
   ("Year", f.year), ("Month", f.month)]

/-- The ordered column names of a single-row record. -/
def columnsOf (r : List (String × ℚ)) : List String := r.map Prod.fst

/-- The column order the source actually produces (`app.py` lines 73-77). -/
def inputColumns : List String :=
  ["magnitude", "cdi", "mmi", "sig", "nst", "dmin", "gap", "depth",
   "latitude", "longitude", "Year", "Month"]

/-- The schema order declared in the specification's data model (spec states
magnitude, depth, community-intensity, Mercalli-intensity, significance,
station-count, minimum-station-distance, azimuthal-gap, latitude, longitude,
year, month, in that order), with each descriptive field name mapped to the
column label the code uses for that field (community-intensity is the `cdi`
column, Mercalli-intensity is `mmi`, significance is `sig`, station-count is
`nst`, minimum-station-distance is `dmin`, azimuthal-gap is `gap`, year is
`Year`, month is `Month`). -/
def specSchemaColumns : List String :=
  ["magnitude", "depth", "cdi", "mmi", "sig", "nst", "dmin", "gap",
   "latitude", "longitude", "Year", "Month"]

/-- Value of a named column of a record (0 if absent; every key used below
is present). -/
def lookupD (r : List (String × ℚ)) (k : String) : ℚ := (r.lookup k).getD 0

/-- The default control values from the widget declarations
(`app.py` lines 59-70); the month default is taken as 10. -/
def defaultForm : FormState :=
  { magnitude := 13/2, depth := 50, cdi := 5, mmi := 5, sig := 600,
    nst := 100, dmin := 1, gap := 40, latitude := 0, longitude := 0,
    year := 2024, month := 10 }

/-- The declared ranges of the twelve controls (`app.py` lines 59-70): the
control library clamps every returned value to these bounds. -/
def formInRange (f : FormState) : Prop :=
  (4 ≤ f.magnitude ∧ f.magnitude ≤ 10) ∧
  (0 ≤ f.depth ∧ f.depth ≤ 700) ∧
  (0 ≤ f.cdi ∧ f.cdi ≤ 10) ∧
  (0 ≤ f.mmi ∧ f.mmi ≤ 10) ∧
  (0 ≤ f.sig ∧ f.sig ≤ 1000) ∧
  (0 ≤ f.nst ∧ f.nst ≤ 1000) ∧
  (0 ≤ f.dmin ∧ f.dmin ≤ 10) ∧
  (0 ≤ f.gap ∧ f.gap ≤ 180) ∧
  (-90 ≤ f.latitude ∧ f.latitude ≤ 90) ∧
  (-180 ≤ f.longitude ∧ f.longitude ≤ 180) ∧
  (1900 ≤ f.year ∧ f.year ≤ 2025) ∧
  (1 ≤ f.month ∧ f.month ≤ 12)

instance (f : FormState) : Decidable (formInRange f) := by
  unfold formInRange; infer_instance

/-- Every assembled value lies within the bound the data model declares for
its field (the bounds coincide with the control ranges). -/
def recordBounds (f : FormState) : Prop :=
  (4 ≤ lookupD (input_data f) "magnitude" ∧ lookupD (input_data f) "magnitude" ≤ 10) ∧
  (0 ≤ lookupD (input_data f) "depth" ∧ lookupD (input_data f) "depth" ≤ 700) ∧
  (0 ≤ lookupD (input_data f) "cdi" ∧ lookupD (input_data f) "cdi" ≤ 10) ∧
  (0 ≤ lookupD (input_data f) "mmi" ∧ lookupD (input_data f) "mmi" ≤ 10) ∧
  (0 ≤ lookupD (input_data f) "sig" ∧ lookupD (input_data f) "sig" ≤ 1000) ∧
  (0 ≤ lookupD (input_data f) "nst" ∧ lookupD (input_data f) "nst" ≤ 1000) ∧
  (0 ≤ lookupD (input_data f) "dmin" ∧ lookupD (input_data f) "dmin" ≤ 10) ∧
  (0 ≤ lookupD (input_data f) "gap" ∧ lookupD (input_data f) "gap" ≤ 180) ∧
  (-90 ≤ lookupD (input_data f) "latitude" ∧ lookupD (input_data f) "latitude" ≤ 90) ∧
  (-180 ≤ lookupD (input_data f) "longitude" ∧ lookupD (input_data f) "longitude" ≤ 180) ∧
  (1900 ≤ lookupD (input_data f) "Year" ∧ lookupD (input_data f) "Year" ≤ 2025) ∧
  (1 ≤ lookupD (input_data f) "Month" ∧ lookupD (input_data f) "Month" ≤ 12)

instance (f : FormState) : Decidable (recordBounds f) := by
  unfold recordBounds; infer_instance

/-- The loaded classifier, as the dashboard uses it: a classification
operation and a probability-estimation operation on a single-row record
(each may raise, embedded as `Except`), and the `feature_importances_`
attribute, whose access may raise (e.g. `AttributeError` when the model
type lacks it). -/
structure ModelX where
  predict : List (String × ℚ) → Except String (List ℤ)
  predict_proba : List (String × ℚ) → Except String (List (List ℚ))
  feature_importances : Except String (List ℚ)

/-- Python indexing `xs[0]`: the first element, or an `IndexError`. -/
def firstOrErr {α : Type} (xs : List α) : Except String α :=
  match xs with
  | [] => Except.error "IndexError"
  | x :: _ => Except.ok x

/-- Python indexing `xs[i]`: the element at `i`, or an `IndexError`. -/
def getOrErr {α : Type} (xs : List α) (i : ℕ) : Except String α :=
  match xs.get? i with
  | some x => Except.ok x
  | none => Except.error "IndexError"

/-- The predictor (`app.py` lines 84-85):
`prediction = model.predict(input_data)[0]` and
`prob = model.predict_proba(input_data)[0][1] * 100`.
Any exception from the underlying calls propagates. -/
def predictor (m : ModelX) (r : List (String × ℚ)) : Except String (ℤ × ℚ) :=
  match m.predict r with
  | Except.error e => Except.error e
  | Except.ok preds =>
    match firstOrErr preds with
    | Except.error e => Except.error e
    | Except.ok c =>
      match m.predict_proba r with
      | Except.error e => Except.error e
      | Except.ok probas =>
        match firstOrErr probas with
        | Except.error e => Except.error e
        | Except.ok row =>
          match getOrErr row 1 with
          | Except.error e => Except.error e
          | Except.ok p1 => Except.ok (c, p1 * 100)

/-- The two fixed verdict variants of the presenter (`app.py` lines 92-97). -/
inductive Verdict where
  | highRisk : Verdict
  | noMajorRisk : Verdict
deriving DecidableEq

/-- The verdict branch: `if prediction == 1` selects the high-risk message,
anything else the safe-conditions message (`app.py` lines 92-97). -/
def verdictOf (prediction : ℤ) : Verdict :=
  if prediction = 1 then Verdict.highRisk else Verdict.noMajorRisk

/-- Round to the nearest integer, ties to even: the rounding Python's
`format(x, '.2f')` applies to the (exactly represented) scaled value. -/
def roundHalfEven (q : ℚ) : ℤ :=
  let f := Int.floor q
  let r := q - (f : ℚ)
  if r < 1/2 then f
  else if 1/2 < r then f + 1
  else if f % 2 = 0 then f else f + 1

/-- The two-decimal percentage display `f"‹prob›:.2f} %"` (`app.py` line 98),
represented by its value in hundredths: the rendered text reads `82.00 %`
exactly when this value is `8200`. -/
def pctHundredths (q : ℚ) : ℤ := roundHalfEven (q * 100)

/-- The radial gauge figure (`app.py` lines 102-116): the displayed value,
the axis range, and the colored step bands, each a (range, color) pair. -/
structure Gauge where
  value : ℚ
  axisRange : ℚ × ℚ
  steps : List ((ℚ × ℚ) × String)
deriving DecidableEq

/-- Construction of the gauge from the probability (`app.py` lines 102-116). -/
def fig_gauge (prob : ℚ) : Gauge :=
  { value := prob,
    axisRange := (0, 100),
    steps := [((0, 40), "lightgreen"), ((40, 70), "gold"), ((70, 100), "tomato")] }

/-- The map's derived risk bucket (`app.py` line 134):
`"High" if magnitude >= 7 else "Moderate" if magnitude >= 5 else "Low"`. -/
def riskLevel (magnitude : ℚ) : String :=
  if 7 ≤ magnitude then "High" else if 5 ≤ magnitude then "Moderate" else "Low"

/-- What the feature-importance section renders: the bar chart, or the
informational fallback notice. -/
inductive ImportanceView where
  | chart : List (String × ℚ) → ImportanceView
  | infoFallback : ImportanceView
deriving DecidableEq

/-- Insert into a list sorted ascending by the importance component. -/
def insertAsc (x : String × ℚ) : List (String × ℚ) → List (String × ℚ)
  | [] => [x]
  | y :: ys => if x.2 ≤ y.2 then x :: y :: ys else y :: insertAsc x ys

/-- `sort_values("Importance", ascending=True)` on the feature table. -/
def sortByImportance : List (String × ℚ) → List (String × ℚ)
  | [] => []
  | x :: xs => insertAsc x (sortByImportance xs)

/-- The feature-importance section (`app.py` lines 165-189): the whole
construction sits in a `try` block whose `except Exception` shows the
informational notice; accessing a missing `feature_importances_` attribute
raises, and `pd.DataFrame` raises when the importance vector's length does
not match the column count. -/
def featureImportanceSection (m : ModelX) (cols : List String) : ImportanceView :=
  match m.feature_importances with
  | Except.error _ => ImportanceView.infoFallback
  | Except.ok imps =>
    if cols.length = imps.length then
      ImportanceView.chart (sortByImportance (cols.zip imps))
    else ImportanceView.infoFallback

/-- Everything the presenter renders on a successful trigger. -/
structure RenderOutput where
  verdict : Verdict
  probDisplay : ℚ
  gauge : Gauge
  mapRisk : String
  importance : ImportanceView

/-- One full trigger cycle (`app.py` lines 83-189): run the predictor on the
assembled record, then render the verdict, the probability, the gauge, the
map risk bucket, and the feature-importance section.  An exception from the
predictor propagates uncaught (there is no `try` around lines 84-85). -/
def runTrigger (m : ModelX) (f : FormState) : Except String RenderOutput :=
  match predictor m (input_data f) with
  | Except.error e => Except.error e
  | Except.ok (c, prob) =>
    Except.ok
      { verdict := verdictOf c,
        probDisplay := prob,
        gauge := fig_gauge prob,
        mapRisk := riskLevel f.magnitude,
        importance := featureImportanceSection m (columnsOf (input_data f)) }

/-- On every successful trigger, the gauge shown is built from the displayed
probability (trivially true on an error outcome). -/
def gaugeConsistent (r : Except String RenderOutput) : Prop :=
  match r with
  | Except.ok o => o.gauge = fig_gauge o.probDisplay
  | Except.error _ => True

/-- The `st.cache_resource` store for `load_model`, plus a counter of how
many times the underlying `joblib.load` deserialization has run. -/
structure LoadState where
  cache : Option ModelX
  loadCount : ℕ

/-- Modelled from the spec: the memoization semantics of the
`@st.cache_resource` decorator on `load_model` (`app.py` lines 39-43) live in
the Streamlit framework, not in this repository.  Per the spec, the result is
memoized process-wide, keyed implicitly by the constant path: on a cache hit
the cached object is returned and the deserializer does not run; on a miss
the artifact is deserialized once and stored.  `artifact` stands for the
result of `joblib.load("Tsunami_model.pkl")`. -/
def load_model (artifact : ModelX) (s : LoadState) : ModelX × LoadState :=
  match s.cache with
  | some m => (m, s)
  | none => (artifact, { cache := some artifact, loadCount := s.loadCount + 1 })

/-- `n` successive calls of `load_model` within one process lifetime,
returning the list of returned model objects and the final cache state. -/
def callLoadN (artifact : ModelX) : ℕ → LoadState → List ModelX × LoadState
  | 0, s => ([], s)
  | Nat.succ n, s =>
    let p := load_model artifact s
    let q := callLoadN artifact n p.2
    (p.1 :: q.1, q.2)

/-- The cache state at process start: nothing loaded yet. -/
def initLoadState : LoadState := { cache := none, loadCount := 0 }

/-- A stubbed model returning class 1 with class-1 probability 0.82 = 41/50,
and lacking a feature-importance accessor. -/
def stubModel82 : ModelX :=
  { predict := fun _ => Except.ok [1],
    predict_proba := fun _ => Except.ok [[9/50, 41/50]],
    feature_importances := Except.error "AttributeError" }

/-- A stubbed model returning class 0 (safe conditions). -/
def stubSafe : ModelX :=
  { predict := fun _ => Except.ok [0],
    predict_proba := fun _ => Except.ok [[1, 0]],
    feature_importances := Except.error "AttributeError" }

/-- A stubbed model whose classification call raises. -/
def stubBadPredict : ModelX :=
  { predict := fun _ => Except.error "boom",
    predict_proba := fun _ => Except.ok [],
    feature_importances := Except.error "AttributeError" }

/-- A stubbed model whose probability-estimation call raises. -/
def stubBadProba : ModelX :=
  { predict := fun _ => Except.ok [0],
    predict_proba := fun _ => Except.error "boom2",
    feature_importances := Except.error "AttributeError" }

lemma firstOrErr_of_head {α : Type} {xs : List α} {x : α}
    (h : xs.head? = some x) : firstOrErr xs = Except.ok x := by
  cases xs with
  | nil => simp at h
  | cons y ys => simp only [List.head?_cons, Option.some.injEq] at h; simp [firstOrErr, h]

lemma getOrErr_of_get {α : Type} {xs : List α} {i : ℕ} {x : α}
    (h : xs.get? i = some x) : getOrErr xs i = Except.ok x := by
  unfold getOrErr
  rw [h]

lemma predictor_ok {m : ModelX} {r : List (String × ℚ)} {preds : List ℤ}
    {c : ℤ} {probas : List (List ℚ)} {row : List ℚ} {p1 : ℚ}
    (h1 : m.predict r = Except.ok preds) (h2 : preds.head? = some c)
    (h3 : m.predict_proba r = Except.ok probas) (h4 : probas.head? = some row)
    (h5 : row.get? 1 = some p1) :
    predictor m r = Except.ok (c, p1 * 100) := by
  simp [predictor, h1, firstOrErr_of_head h2, h3, firstOrErr_of_head h4,
    getOrErr_of_get h5]

lemma runTrigger_ok {m : ModelX} {f : FormState} {c : ℤ} {prob : ℚ}
    (h : predictor m (input_data f) = Except.ok (c, prob)) :
    runTrigger m f = Except.ok
      { verdict := verdictOf c, probDisplay := prob, gauge := fig_gauge prob,
        mapRisk := riskLevel f.magnitude,
        importance := featureImportanceSection m (columnsOf (input_data f)) } := by
  unfold runTrigger
  rw [h]

lemma callLoadN_cached (artifact : ModelX) (n : ℕ) (s : LoadState) (m : ModelX)
    (h : s.cache = some m) : callLoadN artifact n s = (List.replicate n m, s) := by
  induction n with
  | zero => simp [callLoadN]
  | succ k ih =>
    have hl : load_model artifact s = (m, s) := by
      unfold load_model; rw [h]
    simp [callLoadN, hl, ih, List.replicate_succ]

/-- C1 (counterexample): the assembled record's column order does not match
the order the specification's data model declares.  At the default form
values the assembled columns put `depth` eighth, while the declared schema
puts it second. -/
theorem inputColumns_ne_specOrder :
    columnsOf (input_data defaultForm) ≠ specSchemaColumns := by
  decide

/-- C1 (amended): for every assembly of the record from form values, the
column names are exactly the twelve schema fields, but in the order
magnitude, cdi, mmi, sig, nst, dmin, gap, depth, latitude, longitude, Year,
Month — `depth` appears eighth, not second as the declared schema order
states; the two column lists are permutations of each other. -/
theorem input_data_columns_code_order (f : FormState) :
    columnsOf (input_data f) = inputColumns ∧
    inputColumns.Perm specSchemaColumns :=
  ⟨rfl, by decide⟩

/-- C2: for every single-row InputRecord, the predictor returns the class
label taken from the model's classification output together with the model's
class-1 probability multiplied by 100; when the label is binary and the
probability lies in [0,1], the returned label is in «0,1» and the displayed
probability lies in [0,100]. -/
theorem predictor_label_and_probability (m : ModelX) (f : FormState)
    (preds : List ℤ) (c : ℤ) (probas : List (List ℚ)) (row : List ℚ) (p1 : ℚ)
    (h1 : m.predict (input_data f) = Except.ok preds)
    (h2 : preds.head? = some c)
    (h3 : m.predict_proba (input_data f) = Except.ok probas)
    (h4 : probas.head? = some row)
    (h5 : row.get? 1 = some p1)
    (hc : c = 0 ∨ c = 1) (hp0 : 0 ≤ p1) (hp1 : p1 ≤ 1) :
    predictor m (input_data f) = Except.ok (c, p1 * 100) ∧
    (c = 0 ∨ c = 1) ∧ 0 ≤ p1 * 100 ∧ p1 * 100 ≤ 100 :=
  ⟨predictor_ok h1 h2 h3 h4 h5, hc, by linarith, by linarith⟩

/-- C2 (witness): the theorem instantiated at the stubbed binary model with
class-1 probability 41/50. -/
theorem predictor_label_and_probability_witness :
    (stubModel82.predict (input_data defaultForm) = Except.ok [1] ∧
     ([1] : List ℤ).head? = some 1 ∧
     stubModel82.predict_proba (input_data defaultForm) = Except.ok [[9/50, 41/50]] ∧
     ([[9/50, 41/50]] : List (List ℚ)).head? = some [9/50, 41/50] ∧
     ([9/50, 41/50] : List ℚ).get? 1 = some (41/50) ∧
     ((1 : ℤ) = 0 ∨ (1 : ℤ) = 1) ∧ (0 : ℚ) ≤ 41/50 ∧ (41/50 : ℚ) ≤ 1) ∧
    (predictor stubModel82 (input_data defaultForm) = Except.ok (1, (41/50) * 100) ∧
     ((1 : ℤ) = 0 ∨ (1 : ℤ) = 1) ∧ (0 : ℚ) ≤ (41/50) * 100 ∧ (41/50 : ℚ) * 100 ≤ 100) :=
  ⟨⟨rfl, rfl, rfl, rfl, rfl, Or.inr rfl, by norm_num, by norm_num⟩,
   predictor_label_and_probability stubModel82 defaultForm [1] 1
     [[9/50, 41/50]] [9/50, 41/50] (41/50) rfl rfl rfl rfl rfl
     (Or.inr rfl) (by norm_num) (by norm_num)⟩

/-- C3: with the stubbed model returning class 1 and class-1 probability
0.82, the presenter takes the high-risk verdict branch and displays the
percentage 82.00 (8200 hundredths); with the stubbed model returning class 0
it takes the safe-conditions branch. -/
theorem presenter_branch_and_percent_82 :
    predictor stubModel82 (input_data defaultForm) = Except.ok (1, 82) ∧
    (∃ out, runTrigger stubModel82 defaultForm = Except.ok out ∧
      out.verdict = Verdict.highRisk ∧ out.probDisplay = 82 ∧
      pctHundredths out.probDisplay = 8200) ∧
    (∃ outS, runTrigger stubSafe defaultForm = Except.ok outS ∧
      outS.verdict = Verdict.noMajorRisk) := by
  have hp : predictor stubModel82 (input_data defaultForm) = Except.ok (1, 82) := by
    have h := @predictor_ok stubModel82 (input_data defaultForm)
      [1] 1 [[9/50, 41/50]] [9/50, 41/50] (41/50) rfl rfl rfl rfl rfl
    rw [h]
    norm_num
  have hps : predictor stubSafe (input_data defaultForm) = Except.ok (0, 0) := by
    have h := @predictor_ok stubSafe (input_data defaultForm)
      [0] 0 [[1, 0]] [1, 0] 0 rfl rfl rfl rfl rfl
    rw [h]
    norm_num
  refine ⟨hp, ⟨_, runTrigger_ok hp, rfl, rfl, ?_⟩, ⟨_, runTrigger_ok hps, rfl⟩⟩
  show pctHundredths 82 = 8200
  norm_num [pctHundredths, roundHalfEven]

/-- C4: the map risk bucket is derived from magnitude alone: High exactly
when magnitude ≥ 7, Moderate exactly when 5 ≤ magnitude < 7, Low exactly
when magnitude < 5; in particular 7.5 gives High, 6.0 Moderate, 4.0 Low. -/
theorem riskLevel_buckets :
    (∀ m : ℚ, (riskLevel m = "High" ↔ 7 ≤ m) ∧
      (riskLevel m = "Moderate" ↔ 5 ≤ m ∧ m < 7) ∧
      (riskLevel m = "Low" ↔ m < 5)) ∧
    riskLevel (15/2) = "High" ∧ riskLevel 6 = "Moderate" ∧ riskLevel 4 = "Low" := by
  refine ⟨fun m => ?_, by norm_num [riskLevel], by norm_num [riskLevel],
    by norm_num [riskLevel]⟩
  unfold riskLevel
  split_ifs with h1 h2 <;> refine ⟨?_, ?_, ?_⟩ <;> simp_all <;> linarith

/-- C5: when the loaded model lacks a feature-importance accessor, the
failure is caught and the informational fallback is rendered while the
trigger cycle completes without an uncaught error; an exception raised by
the classification call, or by the probability-estimation call, propagates
uncaught out of the trigger cycle. -/
theorem importance_fallback_and_error_propagation
    (m mbadP mbadQ : ModelX) (f : FormState) (e eP eQ : String)
    (preds : List ℤ) (c : ℤ) (probas : List (List ℚ)) (row : List ℚ) (p1 : ℚ)
    (predsQ : List ℤ) (cQ : ℤ)
    (hfi : m.feature_importances = Except.error e)
    (h1 : m.predict (input_data f) = Except.ok preds)
    (h2 : preds.head? = some c)
    (h3 : m.predict_proba (input_data f) = Except.ok probas)
    (h4 : probas.head? = some row)
    (h5 : row.get? 1 = some p1)
    (hbp : mbadP.predict (input_data f) = Except.error eP)
    (hq1 : mbadQ.predict (input_data f) = Except.ok predsQ)
    (hq2 : predsQ.head? = some cQ)
    (hq3 : mbadQ.predict_proba (input_data f) = Except.error eQ) :
    (∃ out, runTrigger m f = Except.ok out ∧
      out.importance = ImportanceView.infoFallback) ∧
    runTrigger mbadP f = Except.error eP ∧
    runTrigger mbadQ f = Except.error eQ := by
  refine ⟨⟨_, runTrigger_ok (predictor_ok h1 h2 h3 h4 h5), ?_⟩, ?_, ?_⟩
  · show featureImportanceSection m (columnsOf (input_data f)) =
      ImportanceView.infoFallback
    simp [featureImportanceSection, hfi]
  · simp [runTrigger, predictor, hbp]
  · simp [runTrigger, predictor, hq1, firstOrErr_of_head hq2, hq3]

/-- C5 (witness): the theorem instantiated at a stub lacking the accessor, a
stub whose classification call raises, and a stub whose probability call
raises. -/
theorem importance_fallback_and_error_propagation_witness :
    (stubModel82.feature_importances = Except.error "AttributeError" ∧
     stubModel82.predict (input_data defaultForm) = Except.ok [1] ∧
     ([1] : List ℤ).head? = some 1 ∧
     stubModel82.predict_proba (input_data defaultForm) = Except.ok [[9/50, 41/50]] ∧
     ([[9/50, 41/50]] : List (List ℚ)).head? = some [9/50, 41/50] ∧
     ([9/50, 41/50] : List ℚ).get? 1 = some (41/50) ∧
     stubBadPredict.predict (input_data defaultForm) = Except.error "boom" ∧
     stubBadProba.predict (input_data defaultForm) = Except.ok [0] ∧
     ([0] : List ℤ).head? = some 0 ∧
     stubBadProba.predict_proba (input_data defaultForm) = Except.error "boom2") ∧
    ((∃ out, runTrigger stubModel82 defaultForm = Except.ok out ∧
       out.importance = ImportanceView.infoFallback) ∧
     runTrigger stubBadPredict defaultForm = Except.error "boom" ∧
     runTrigger stubBadProba defaultForm = Except.error "boom2") :=
  ⟨⟨rfl, rfl, rfl, rfl, rfl, rfl, rfl, rfl, rfl, rfl⟩,
   importance_fallback_and_error_propagation stubModel82 stubBadPredict
     stubBadProba defaultForm "AttributeError" "boom" "boom2"
     [1] 1 [[9/50, 41/50]] [9/50, 41/50] (41/50) [0] 0
     rfl rfl rfl rfl rfl rfl rfl rfl rfl rfl⟩

/-- C6: within one process lifetime, invoking the model-loading operation
any number n ≥ 2 of times from a fresh cache performs the underlying
deserialization exactly once, and every call returns the same cached model
object. -/
theorem load_model_memoized (artifact : ModelX) (n : ℕ) (h : 2 ≤ n) :
    (callLoadN artifact n initLoadState).2.loadCount = 1 ∧
    (callLoadN artifact n initLoadState).1 = List.replicate n artifact := by
  cases n with
  | zero => omega
  | succ k =>
    have h1 : load_model artifact initLoadState =
        (artifact, { cache := some artifact, loadCount := 1 }) := rfl
    have h2 : callLoadN artifact k { cache := some artifact, loadCount := 1 } =
        (List.replicate k artifact, { cache := some artifact, loadCount := 1 }) :=
      callLoadN_cached artifact k _ artifact rfl
    constructor
    · simp [callLoadN, h1, h2]
    · simp [callLoadN, h1, h2, List.replicate_succ]

/-- C6 (witness): two invocations from a fresh cache deserialize once and
both return the deserialized object. -/
theorem load_model_memoized_witness :
    2 ≤ 2 ∧
    ((callLoadN stubSafe 2 initLoadState).2.loadCount = 1 ∧
     (callLoadN stubSafe 2 initLoadState).1 = List.replicate 2 stubSafe) :=
  ⟨by norm_num, load_model_memoized stubSafe 2 (by norm_num)⟩

/-- C7: the assembler is a pure projection of the form values: the assembled
record's value under each of the twelve column names is exactly the current
value of the corresponding control, with no transformation applied. -/
theorem input_data_pure_projection (f : FormState) :
    (input_data f).lookup "magnitude" = some f.magnitude ∧
    (input_data f).lookup "depth" = some f.depth ∧
    (input_data f).lookup "cdi" = some f.cdi ∧
    (input_data f).lookup "mmi" = some f.mmi ∧
    (input_data f).lookup "sig" = some f.sig ∧
    (input_data f).lookup "nst" = some f.nst ∧
    (input_data f).lookup "dmin" = some f.dmin ∧
    (input_data f).lookup "gap" = some f.gap ∧
    (input_data f).lookup "latitude" = some f.latitude ∧
    (input_data f).lookup "longitude" = some f.longitude ∧
    (input_data f).lookup "Year" = some f.year ∧
    (input_data f).lookup "Month" = some f.month :=
  ⟨rfl, rfl, rfl, rfl, rfl, rfl, rfl, rfl, rfl, rfl, rfl, rfl⟩

/-- C8: whenever the form control values respect the declared control
ranges, every value in the assembled record lies within the bound the data
model declares for its field. -/
theorem input_data_respects_bounds (f : FormState) (h : formInRange f) :
    recordBounds f := h

/-- C8 (witness): the default control values are in range and the record
assembled from them is within the declared bounds. -/
theorem input_data_respects_bounds_witness :
    formInRange defaultForm ∧ recordBounds defaultForm :=
  ⟨by norm_num [formInRange, defaultForm],
   input_data_respects_bounds defaultForm (by norm_num [formInRange, defaultForm])⟩

/-- C9 (counterexample): the gauge's low band is not colored with the color
string the claim states: its color literal is "lightgreen", not "green". -/
theorem gauge_low_band_not_green :
    (fig_gauge 0).steps.map (fun s => s.2) ≠ ["green", "gold", "tomato"] := by
  decide

/-- C9 (amended): for every displayed probability, the gauge takes that
probability as its value over a [0,100] axis and carries exactly the three
fixed severity bands [0,40] / [40,70] / [70,100] with the color literals
lightgreen, gold and tomato (lightgreen rather than green for the low band);
and every successful trigger builds the gauge from the displayed
probability. -/
theorem gauge_bands (prob : ℚ) :
    (fig_gauge prob).value = prob ∧
    (fig_gauge prob).axisRange = (0, 100) ∧
    (fig_gauge prob).steps =
      [((0, 40), "lightgreen"), ((40, 70), "gold"), ((70, 100), "tomato")] ∧
    (fig_gauge prob).steps.length = 3 ∧
    (∀ m f, gaugeConsistent (runTrigger m f)) := by
  refine ⟨rfl, rfl, rfl, rfl, fun m f => ?_⟩
  cases hp : predictor m (input_data f) with
  | error e => simp [gaugeConsistent, runTrigger, hp]
  | ok cp => simp [gaugeConsistent, runTrigger, hp]

/-- C10: the presenter takes the high-risk verdict branch exactly when the
returned class label equals 1, and the safe-conditions branch for every
other label, including labels outside «0,1» such as 2 and -1. -/
theorem verdict_branch_iff_one :
    (∀ c : ℤ, (verdictOf c = Verdict.highRisk ↔ c = 1) ∧
      (verdictOf c = Verdict.noMajorRisk ↔ c ≠ 1)) ∧
    verdictOf 2 = Verdict.noMajorRisk ∧
    verdictOf (-1) = Verdict.noMajorRisk ∧
    verdictOf 0 = Verdict.noMajorRisk ∧
    verdictOf 1 = Verdict.highRisk := by
  refine ⟨fun c => ?_, by norm_num [verdictOf], by norm_num [verdictOf],
    by norm_num [verdictOf], by norm_num [verdictOf]⟩
  unfold verdictOf
  split_ifs with h
  · simp_all
  · simp_all
